import Mathlib

/-!
Shallow embedding of the post2image web service.

The service turns a social-media post URL into an Open Graph card (an HTML
document plus a PNG image).  The embedding below translates, function by
function, the parts of the Python sources that the verified properties are
about:

* `requestHandler.py` : request classification (`do_GET`,
  `_is_open_graph_crawler`, `_get_post_type`, `_parse_path`), the card
  pipeline (`_return_open_graph_card`, `_get_html_for_post`, `_get_user`),
  the cache-freshness test, and the tmp-file gate
  (`_write_html_to_tmp_file`, `_erase_tmp_file`).
* `browser.py` : the resize/pad step `_get_properly_sized_image`.
* `twitter.py`, `bluesky.py`, `threads.py` : the likes-label extractors and
  the crop-rectangle computations.

External effects (file system, network, the headless browser) are made
explicit: the outcome of each effectful step is a field of an `Env` record,
raised Python exceptions are `Except.error`, and the side effects a request
performs are recorded as a list of `Event`s together with the final state of
the tmp marker file.  Python floats are modelled as exact rationals.
-/

/-- Post types, mirroring the `PostType` enum that `requestHandler.py` and
`browser.py` import from `browserType` (members `XITTER`, `BLUESKY`,
`THREADS`, `UNKNOWN`). -/
inductive PostType where
  | XITTER
  | BLUESKY
  | THREADS
  | UNKNOWN
deriving DecidableEq, Repr

/-- Does `pat` occur as a contiguous sublist of the second argument?  Models
the Python substring membership test `pat in s`. -/
def containsSub (pat : List Char) : List Char → Bool
  | [] => pat.isEmpty
  | c :: t => pat.isPrefixOf (c :: t) || containsSub pat t

/-- Python string membership `pat in s`. -/
def strContains (s pat : String) : Bool := containsSub pat.toList s.toList

/-- `RequestHandler._get_post_type` (requestHandler.py lines 184-201):
classification of a request path by substring tests. -/
def get_post_type (path : String) : PostType :=
  if strContains path "/status/" then .XITTER
  else if strContains path "/profile/" && strContains path "/post/" then .BLUESKY
  else if strContains path "/@" && strContains path "/post/" then .THREADS
  else .UNKNOWN

/-- The freshness test of `RequestHandler._return_open_graph_card`
(requestHandler.py lines 214-218): the cached card is used iff
`current_time < card_modified_time + allowable_hours * 60 * 60`, where
`allowable_hours = int(config_values['allowable_cache_file_age_hours'])`
(config.py lines 21-32).  Times are seconds since the epoch. -/
def cache_is_fresh (current_time card_modified_time : ℚ) (allowable_hours : ℕ) : Bool :=
  decide (current_time < card_modified_time + (allowable_hours : ℚ) * 60 * 60)

/-- Python `str.lower()`, character by character (the User-Agent strings the
code lowercases are ASCII). -/
def py_lower (s : String) : String := String.mk (s.toList.map Char.toLower)

/-- `RequestHandler._is_open_graph_crawler` (requestHandler.py lines 99-113).
The `User-Agent` header is `none` when absent; the code then skips the
`.lower()` call (`if user_agent:` is false) and evaluates
`'opengraph' in None`, which raises `TypeError`, modelled as an error. -/
def is_open_graph_crawler (user_agent : Option String) : Except String Bool :=
  match user_agent with
  | none => .error "TypeError: argument of type NoneType is not iterable"
  | some ua =>
    .ok (strContains (py_lower ua) "opengraph" || strContains (py_lower ua) "bluesky cardyb")

/-- Python regex `\S`: any non-whitespace character. -/
def isNonSpace (c : Char) : Bool := !c.isWhitespace

/-- Backtracking search used by `matchTwoGroups`: the regexes of this program
all have the shape `lit0(\S+)lit1(p2+)`, and `re.match` resolves the greedy
`\S+` by first trying the longest candidate run and shortening it until the
literal `lit1` followed by at least one `p2` character fits.  `rest` is the
input with `lit0` already consumed, and the candidate length counts down from
the length of the maximal non-space run.  Returns `(group1, group2)`. -/
def tryMatchAt (rest lit1 : List Char) (p2 : Char → Bool) : ℕ → Option (List Char × List Char)
  | 0 => none
  | k + 1 =>
    let after := rest.drop (k + 1)
    if lit1.isPrefixOf after then
      let g2 := (after.drop lit1.length).takeWhile p2
      if g2.isEmpty then tryMatchAt rest lit1 p2 k
      else some (rest.take (k + 1), g2)
    else tryMatchAt rest lit1 p2 k

/-- `re.match` semantics for a pattern of the shape `lit0(\S+)lit1(p2+)`:
anchored at the start, `lit0` literal, group 1 a greedy `\S+`, then the
literal `lit1`, then group 2 a greedy non-empty run of `p2` characters.
`none` models a failed match (on which `_parse_path` in requestHandler.py
lines 380-391 would raise `AttributeError` from `None.groups()`). -/
def matchTwoGroups (lit0 lit1 : List Char) (p2 : Char → Bool) (s : List Char) :
    Option (List Char × List Char) :=
  if lit0.isPrefixOf s then
    let rest := s.drop lit0.length
    tryMatchAt rest lit1 p2 (rest.takeWhile isNonSpace).length
  else none

/-- `RequestHandler._parse_path` with `twitter_post_regex()` (twitter.py
lines 14-19), the pattern `/(\S+)/status/(\S+)` applied by `re.match`. -/
def twitter_parse (path : String) : Option (String × String) :=
  (matchTwoGroups ['/'] "/status/".toList isNonSpace path.toList).map
    fun g => (String.mk g.1, String.mk g.2)

/-- `RequestHandler._parse_path` with `bluesky_post_regex()` (bluesky.py
lines 13-18), the pattern `/profile/(\S+)/post/(\S+)`. -/
def bluesky_parse (path : String) : Option (String × String) :=
  (matchTwoGroups "/profile/".toList "/post/".toList isNonSpace path.toList).map
    fun g => (String.mk g.1, String.mk g.2)

/-- `RequestHandler._parse_path` with `threads_post_regex()` (threads.py
lines 12-18), the pattern `/(\S+)/post/([^?]+)`. -/
def threads_parse (path : String) : Option (String × String) :=
  (matchTwoGroups ['/'] "/post/".toList (fun c => c != '?') path.toList).map
    fun g => (String.mk g.1, String.mk g.2)

/-- A path matches some platform grammar when one of the three `re.match`
patterns succeeds on it. -/
def matches_some_grammar (path : String) : Bool :=
  (twitter_parse path).isSome || (bluesky_parse path).isSome || (threads_parse path).isSome

/-- Python `s.find(c, start)` on a string viewed as a character list: index of
the first occurrence of `c` at or after `start`, `-1` when there is none. -/
def py_find (s : List Char) (c : Char) (start : ℕ) : ℤ :=
  match (s.drop start).findIdx? (· = c) with
  | some i => ((start + i : ℕ) : ℤ)
  | none => -1

/-- Python slice `s[a:b]` for a non-negative `a` and a possibly negative `b`
(a negative `b` counts from the end of the string). -/
def py_slice (s : List Char) (a : ℕ) (b : ℤ) : List Char :=
  let bn : ℕ := if b < 0 then ((s.length : ℤ) + b).toNat else b.toNat
  (s.take bn).drop a

/-- Python `s.startswith(pre)`, as in the image-namespace test
`self.path.startswith('/' + self._images_directory)` at requestHandler.py
line 59. -/
def strStartsWith (s pre : String) : Bool := pre.toList.isPrefixOf s.toList

/-- `urlparse(self.path).path`: the request path with the query string (after
a first unescaped separator) removed, as used at requestHandler.py lines 120
and 207. -/
def url_path (raw : String) : String :=
  String.mk (raw.toList.takeWhile (fun c => c != '?' && c != '#'))

/-- Side effects a card request performs, in program order:
`cacheLookup` is the card-cache read `_get_card_from_cache`;
`imageLookup` is a read of the image store (only ever performed by
`_return_image` for requests inside the image namespace);
`gateAcquire` is the successful creation of the marker `tmp/post.html` in
`_write_html_to_tmp_file`; `renderCall` is `browser.get_screenshot_for_html`;
`gateRelease` is `_erase_tmp_file`; `imageWrite` is `screenshot_image.save`;
`cardWrite` is `_put_card_into_cache`. -/
inductive Event where
  | cacheLookup
  | imageLookup
  | gateAcquire
  | renderCall
  | gateRelease
  | imageWrite
  | cardWrite
deriving DecidableEq, Repr

/-- An HTTP response as assembled by the `send_response`/`send_header` calls
of requestHandler.py. -/
structure HttpResponse where
  status : ℕ
  contentType : Option String
  body : String
  location : Option String
deriving DecidableEq, Repr

/-- `RequestHandler._html_response` (requestHandler.py lines 435-446). -/
def html_response (msg : String) : HttpResponse :=
  { status := 200, contentType := some "html", body := msg, location := none }

/-- `RequestHandler._error_response` (requestHandler.py lines 461-472). -/
def error_response (msg : String) : HttpResponse :=
  { status := 404, contentType := some "text/plain", body := msg, location := none }

/-- What one request produced: the response sent, the side effects in order,
the lines appended to the dedicated bad-requests log, and whether the gate
marker file `tmp/post.html` exists when the handler returns. -/
structure ReqOutcome where
  response : HttpResponse
  events : List Event
  bad_request_log : List String
  tmp_file_exists : Bool
deriving DecidableEq, Repr

/-- Result of `browser.get_screenshot_for_html` (browser.py lines 140-182)
when it returns normally: the final image size, the shrink ratio, the likes
label and the post text. -/
structure RenderResult where
  imgW : ℕ
  imgH : ℕ
  shrinkage : ℚ
  likes_str : String
  post_text : String
deriving DecidableEq, Repr

/-- The environment a card request runs in: configuration values, clock and
file-system state, and the outcome of each external step.  An `Except.error`
models the step raising a Python exception. -/
structure Env where
  /-- `_get_card_from_cache path`: contents of the cache file, if it exists. -/
  cached_card : Option String
  /-- `os.path.getmtime` of the cache file. -/
  card_modified_time : ℚ
  /-- `time.time()`. -/
  current_time : ℚ
  /-- `int(config_values['allowable_cache_file_age_hours'])`. -/
  allowable_hours : ℕ
  /-- `config_values['domain']`. -/
  domain : String
  /-- `self.client_address[0]`. -/
  client_ip : String
  /-- `stable_hash_str` (stable_hash.py): the first 12 hex digits of an MD5
  digest, upper-cased.  MD5 itself is not modelled, so the hash is supplied
  by the environment. -/
  stable_hash : String → String
  /-- Outcome of the platform handler `_xitter_post`, `_bluesky_post` or
  `_threads_post` (regex parse plus network fetch of the embed snippet) for
  each known post type. -/
  snippet : PostType → Except String String
  /-- Outcome of `browser.get_screenshot_for_html`. -/
  render : Except String RenderResult

/-- `RequestHandler._get_html_for_post` (requestHandler.py lines 334-353):
for `UNKNOWN` it appends one warning line `client-ip : message` to the
bad-requests logger and returns the empty string; for a known type it invokes
the platform handler, whose outcome comes from the environment.  Returns the
result together with the log lines appended. -/
def get_html_for_post (env : Env) (raw_path : String) (post_type : PostType) :
    Except String String × List String :=
  match post_type with
  | .UNKNOWN =>
    (.ok "",
     [env.client_ip ++ " : " ++ "Not a post that can be handled:\"" ++ raw_path ++ "\""])
  | t => (env.snippet t, [])

/-- `RequestHandler._get_user` (requestHandler.py lines 355-378): cuts the
username out of the path with Python `find`/slice semantics; when no branch
matches it appends a warning line to the bad-requests logger and returns
`None`. -/
def get_user (env : Env) (raw_path path : String) : Option String × List String :=
  let l := path.toList
  if strContains path "/status/" then
    (some (String.mk (py_slice l 1 (py_find l '/' 1))), [])
  else if strContains path "/profile/" && strContains path "/post/" then
    (some (String.mk (py_slice l 10 (py_find l '/' 10))), [])
  else if strContains path "/@" && strContains path "/post/" then
    (some (String.mk (py_slice l 2 (py_find l '/' 2))), [])
  else
    (none, [env.client_ip ++ " : " ++ "Not a valid post path \"" ++ raw_path ++ "\""])

/-- The Open Graph card document built by the f-string at requestHandler.py
lines 268-281 (the apostrophe inside one source HTML comment is elided). -/
def card_html (path title description image_url : String) (width height : ℕ) : String :=
  "\n<html>\n<head>\n<!-- OpenGraph card for post " ++ path ++ " -->\n" ++
  "<meta property=\"og:title\" content=\"" ++ title ++ "\" />\n" ++
  "<meta name=\"twitter:title\" content=\"" ++ title ++ "\" /> \n" ++
  "<meta property=\"og:description\" content=\"" ++ description ++ "\" />\n" ++
  "<meta property=\"og:image\" content=\"" ++ image_url ++ "\" />\n" ++
  " <!-- does not work on Bluesky et al so not truly needed-->\n" ++
  "<meta property=\"og:type\" content=\"image\" />\n" ++
  "<meta property=\"og:image:width\" content=\"" ++ toString width ++ "\" />\n" ++
  "<meta property=\"og:image:height\" content=\"" ++ toString height ++ "\" />\n" ++
  "</head>\n</html>"

/-- The cache-miss part of `RequestHandler._return_open_graph_card`
(requestHandler.py lines 224-293): obtain the snippet html (an empty string
means the post is unknown or the upstream returned nothing, answered with the
404 `_error_response`), acquire the gate by writing the tmp file, render,
erase the tmp file, store the image, compose the card, cache it and return
it.  A raised exception is caught by the bare `except:` at line 288 and
answered with `_error_response`; the `finally:` block at line 292 only logs,
so an exception raised after the gate was acquired leaves the marker file in
place.  `tmp0` is whether the marker exists on entry (the acquisition loop
itself is modelled separately by `acquire_attempts`). -/
def regenerate_card (env : Env) (raw_path : String) (tmp0 : Bool) : ReqOutcome :=
  let path := url_path raw_path
  let post_type := get_post_type path
  let fetched := get_html_for_post env raw_path post_type
  match fetched.1 with
  | .error e =>
    { response := error_response ("Exception for request " ++ raw_path ++ "\n" ++ e),
      events := [.cacheLookup], bad_request_log := fetched.2, tmp_file_exists := tmp0 }
  | .ok html =>
    if html = "" then
      { response := error_response ("Could not get html for path=" ++ path),
        events := [.cacheLookup], bad_request_log := fetched.2, tmp_file_exists := tmp0 }
    else
      match env.render with
      | .error e =>
        { response := error_response ("Exception for request " ++ raw_path ++ "\n" ++ e),
          events := [.cacheLookup, .gateAcquire, .renderCall],
          bad_request_log := fetched.2,
          tmp_file_exists := true }
      | .ok r =>
        let image_url := "http://" ++ env.domain ++ "/images/" ++ env.stable_hash path ++ ".png"
        let got_user := get_user env raw_path path
        let user_str := match got_user.1 with
          | some u => u
          | none => "None"
        let title0 := r.likes_str ++ " - Posted by @" ++ user_str
        let desc_title : String × String :=
          if r.shrinkage < 8/10 then (r.post_text, title0 ++ ":") else ("", title0)
        let card := card_html path desc_title.2 desc_title.1 image_url r.imgW r.imgH
        { response := html_response card,
          events := [.cacheLookup, .gateAcquire, .renderCall, .gateRelease,
                     .imageWrite, .cardWrite],
          bad_request_log := fetched.2 ++ got_user.2,
          tmp_file_exists := false }

/-- `RequestHandler._return_open_graph_card` (requestHandler.py lines
203-293): strip the query string, look the card up in the cache, serve it
when present, non-empty (the Python truthiness test at line 213) and fresh,
and otherwise regenerate it. -/
def return_open_graph_card (env : Env) (raw_path : String) (tmp0 : Bool) : ReqOutcome :=
  match env.cached_card with
  | some card =>
    if card ≠ "" &&
        cache_is_fresh env.current_time env.card_modified_time env.allowable_hours then
      { response := html_response card, events := [.cacheLookup],
        bad_request_log := [], tmp_file_exists := tmp0 }
    else
      regenerate_card env raw_path tmp0
  | none => regenerate_card env raw_path tmp0

/-- `RequestHandler._return_redirect_to_original_post` (requestHandler.py
lines 115-141): a 302 whose `Location` is the raw request path reissued under
the owning platform public domain (`x.com` also for unknown paths).  No
`Content-Type` header is sent and nothing is logged to the bad-requests
log. -/
def return_redirect_to_original_post (raw_path : String) (tmp0 : Bool) : ReqOutcome :=
  let path := url_path raw_path
  let domain_name := match get_post_type path with
    | .XITTER => "x.com"
    | .BLUESKY => "bsky.app"
    | .THREADS => "threads.net"
    | .UNKNOWN => "x.com"
  let new_url := "https://" ++ domain_name ++ raw_path
  { response := { status := 302, contentType := none,
                  body := "Redirecting to " ++ new_url, location := some new_url },
    events := [], bad_request_log := [], tmp_file_exists := tmp0 }

/-- `RequestHandler.do_GET` (requestHandler.py lines 47-69), in steady state
(the one-off startup erase of the tmp file is not modelled).  Image-namespace
paths are served from the image store by literal file name; for every other
path the crawler test decides between the card pipeline and the redirect.  A
`TypeError` raised by `_is_open_graph_crawler` (absent `User-Agent`)
propagates out of `do_GET`, so no response is produced. -/
def do_GET (env : Env) (raw_path : String) (user_agent : Option String) (tmp0 : Bool) :
    Except String ReqOutcome :=
  if strStartsWith raw_path "/images" then
    .ok { response := { status := 200, contentType := some "image/png",
                        body := raw_path.drop 1, location := none },
          events := [.imageLookup], bad_request_log := [], tmp_file_exists := tmp0 }
  else
    match is_open_graph_crawler user_agent with
    | .error e => .error e
    | .ok true => .ok (return_open_graph_card env raw_path tmp0)
    | .ok false => .ok (return_redirect_to_original_post raw_path tmp0)

/-- `RequestHandler._write_html_to_tmp_file` (requestHandler.py lines
298-319), the gate-acquisition loop: attempt `open(name, "x")`, which
succeeds exactly when the marker file does not exist; on `FileExistsError`
sleep 2.0 seconds, and if more than 20 seconds have passed since `start`,
force-open the marker with mode `"w"`.  `occupied k` says whether the marker
still exists at the k-th creation attempt (0-based); after the k-th failure
the elapsed time is `2 * (k + 1)` seconds.  Returns the number of `open`
calls made and whether the last one was the forcing `open(..., "w")`. -/
def acquire_attempts (occupied : ℕ → Bool) (k : ℕ) : ℕ × Bool :=
  if occupied k = false then (k + 1, false)
  else if 20 < 2 * (k + 1) then (k + 1, true)
  else acquire_attempts occupied (k + 1)
termination_by 10 - k
decreasing_by
  rename_i h2
  simp only [not_lt] at h2
  omega

/-- `browser._get_properly_sized_image` (browser.py lines 185-241), the
computation of the final canvas size: with `DESIRED_ASPECT_RATIO = 1.9`, an
image too tall grows in width (`desired_w = 1.9 * img_h`), an image too wide
grows in height (`desired_h = img_w / 1.9`); when the resulting width exceeds
1200 the size is replaced by the literal integer pair `(1200, 630)`.  The
canvas of this size becomes the final image (the source image is only shrunk
to fit and pasted onto it).  In both unclamped branches one of the two
desired dimensions is a Python `float` whatever its value (`1.9 * img_h`,
resp. `img_w / 1.9`), and PIL `Image.new` rejects float dimensions with
`TypeError`, so a canvas is actually created only in the clamped branch;
the error is modelled as `Except.error` and float values as exact
rationals. -/
def proper_size (img_w img_h : ℚ) : Except String (ℚ × ℚ) :=
  let desired : ℚ × ℚ :=
    if img_w / img_h < 19/10 then (19/10 * img_h, img_h) else (img_w, img_w / (19/10))
  if 1200 < desired.1 then .ok ((1200 : ℚ), (630 : ℚ))
  else .error "TypeError: size must be a tuple of two integers"

/-- Python `round()` on an exact rational: round to the nearest integer,
halves to the even neighbour. -/
def pyRound (q : ℚ) : ℤ :=
  if q - ⌊q⌋ < 1/2 then ⌊q⌋
  else if 1/2 < q - ⌊q⌋ then ⌊q⌋ + 1
  else if ⌊q⌋ % 2 = 0 then ⌊q⌋ else ⌊q⌋ + 1

/-- A bounding box as reported by selenium `element.rect`
(fields `x`, `y`, `width`, `height`), in browser pixels. -/
structure ElemRect where
  x : ℚ
  y : ℚ
  width : ℚ
  height : ℚ
deriving DecidableEq, Repr

/-- The measurements `get_twitter_rect` reads from the live DOM when an
`<article>` element is present: the `y` of the first `<div>` of the article,
the `y` of the `<time>` element when there is one, and the article height. -/
structure TwitterArticle where
  div_y : ℚ
  time_y : Option ℚ
  article_height : ℚ
deriving DecidableEq, Repr

/-- `get_twitter_rect` (twitter.py lines 123-163): left and right from the
iframe box inset by 2 pixels each side, top from the first div of the
article (6 above it), bottom from the `<time>` element (10 above it) or from
the article height; without an article, the iframe box itself.  The four
values are rounded; nothing is clamped to the screenshot. -/
def get_twitter_rect (ratio : ℚ) (iframe : ElemRect) (article : Option TwitterArticle) :
    ℤ × ℤ × ℤ × ℤ :=
  let left := iframe.x * ratio + 2
  let right := left + iframe.width * ratio - 4
  match article with
  | some a =>
    let top := (iframe.y + a.div_y) * ratio - 6
    let bottom := match a.time_y with
      | some ty => (iframe.y + ty) * ratio - 10
      | none => top + a.article_height * ratio - 4
    (pyRound left, pyRound top, pyRound right, pyRound bottom)
  | none =>
    let top := iframe.y * ratio
    let bottom := top + iframe.height * ratio
    (pyRound left, pyRound top, pyRound right, pyRound bottom)

/-- `get_bluesky_rect` (bluesky.py lines 110-146): left/right from the iframe
box inset by 1 pixel each side, top 2 above the bar holding the first
`<img>`, bottom 7 above the `<time>` element, or from the iframe height when
there is none.  Rounded, not clamped. -/
def get_bluesky_rect (ratio : ℚ) (iframe : ElemRect) (top_bar_y : ℚ) (time_y : Option ℚ) :
    ℤ × ℤ × ℤ × ℤ :=
  let left := (iframe.x + 1) * ratio
  let right := left + (iframe.width - 2) * ratio
  let top := (iframe.y + top_bar_y - 2) * ratio
  let bottom := match time_y with
    | some ty => (iframe.y + ty - 7) * ratio
    | none => top + (iframe.height - 5) * ratio
  (pyRound left, pyRound top, pyRound right, pyRound bottom)

/-- `get_threads_rect` (threads.py lines 84-107): left/right from the
`OuterContainer` box (2 left of it, width minus 37), top 1 above it, bottom
16 above the `ActionBarContainer` (selenium `find_element` raises when that
element is missing, so the dead `else` branch at line 104 is not modelled).
Rounded, not clamped. -/
def get_threads_rect (ratio : ℚ) (outer : ElemRect) (action_bar_y : ℚ) :
    ℤ × ℤ × ℤ × ℤ :=
  let left := (outer.x - 2) * ratio
  let right := left + (outer.width - 37) * ratio
  let top := (outer.y - 1) * ratio
  let bottom := top + (action_bar_y - 16) * ratio
  (pyRound left, pyRound top, pyRound right, pyRound bottom)

/-- `get_twitter_likes_str` (twitter.py lines 48-86) as a function of the
innerText found at `//article/div/a/div/span` inside the iframe (`none`
models the element lookup raising `NoSuchElementException`, which is caught):
the text is kept, suffixed with the heart entity, only when it is non-empty
and its first character is a digit between 1 and 9. -/
def get_twitter_likes_str (likes_number : Option String) : String :=
  match likes_number with
  | none => ""
  | some t =>
    match t.toList with
    | [] => ""
    | c :: _ => if '1' ≤ c ∧ c ≤ '9' then t ++ " &#9825;" else ""

/-- `get_bluesky_likes_str` (bluesky.py lines 38-72): same guard as the
twitter extractor, on the text found at `//time/../following-sibling::div//p`
(`none` models the caught `NoSuchElementException`). -/
def get_bluesky_likes_str (likes_number : Option String) : String :=
  match likes_number with
  | none => ""
  | some t =>
    match t.toList with
    | [] => ""
    | c :: _ => if '1' ≤ c ∧ c ≤ '9' then t ++ " &#9825;" else ""

/-- `get_threads_likes_str` (threads.py lines 35-57): the innerText of the
`MetadataContainer` element is returned as found, with no check on its
leading character (`none` models the caught exception around
`execute_script`). -/
def get_threads_likes_str (likes_str : Option String) : String :=
  match likes_str with
  | none => ""
  | some t => t

/-- A concrete request environment: empty card cache, successful snippet
fetch, and a failing render step (the headless browser raised). -/
def envRenderFails : Env :=
  { cached_card := none
    card_modified_time := 0
    current_time := 0
    allowable_hours := 24
    domain := "xrosspost.com"
    client_ip := "203.0.113.7"
    stable_hash := fun _ => "0A1B2C3D4E5F"
    snippet := fun _ => .ok "<blockquote>post</blockquote>"
    render := .error "WebDriverException" }

/-- A concrete request environment: empty card cache, successful snippet
fetch and successful render. -/
def envRenderOk : Env :=
  { envRenderFails with
    render := .ok { imgW := 1140, imgH := 600, shrinkage := 1,
                    likes_str := "97 &#9825;", post_text := "hello" } }

/-- C3: a cached card written at time `T` is served from cache exactly when
the current time is strictly less than `T` plus the allowable hours in
seconds; in particular it is fresh one second before that bound and stale
one second after it. -/
theorem cache_ttl_boundary (T : ℚ) (ttl : ℕ) :
    (∀ now : ℚ, cache_is_fresh now T ttl = true ↔ now < T + ttl * 3600) ∧
    cache_is_fresh (T + ttl * 3600 - 1) T ttl = true ∧
    cache_is_fresh (T + ttl * 3600 + 1) T ttl = false := by
  have h : (ttl : ℚ) * 60 * 60 = ttl * 3600 := by ring
  refine ⟨fun now => ?_, ?_, ?_⟩
  · simp only [cache_is_fresh, h, decide_eq_true_eq]
  · simp only [cache_is_fresh, h, decide_eq_true_eq]
    linarith
  · simp only [cache_is_fresh, h, decide_eq_false_iff_not, not_lt]
    linarith

/-- C10: for a GET request outside the image namespace with no `User-Agent`
header, `_is_open_graph_crawler` evaluates a membership test on `None`,
raising `TypeError` before any response is produced. -/
theorem missing_user_agent_raises (env : Env) (raw_path : String) (tmp0 : Bool)
    (himg : strStartsWith raw_path "/images" = false) :
    do_GET env raw_path none tmp0 =
      Except.error "TypeError: argument of type NoneType is not iterable" := by
  simp [do_GET, himg, is_open_graph_crawler]

/-- Witness for `missing_user_agent_raises` at a concrete request. -/
theorem missing_user_agent_raises_witness :
    do_GET envRenderFails "/u/status/1" none false =
      Except.error "TypeError: argument of type NoneType is not iterable" :=
  missing_user_agent_raises envRenderFails "/u/status/1" false (by decide)

/-- The acquisition loop makes at most 11 `open` calls when started at
attempt `k ≤ 10`. -/
lemma acquire_attempts_le (occupied : ℕ → Bool) :
    ∀ n k, 10 - k ≤ n → k ≤ 10 → (acquire_attempts occupied k).1 ≤ 11 := by
  intro n
  induction n with
  | zero =>
    intro k h1 h2
    have hk : k = 10 := by omega
    subst hk
    rw [acquire_attempts]
    by_cases h : occupied 10 = false <;> simp [h]
  | succ n ih =>
    intro k h1 h2
    rw [acquire_attempts]
    by_cases h : occupied k = false
    · simp [h]
      omega
    · simp [h]
      by_cases h20 : 20 < 2 * (k + 1)
      · simp [h20]
        omega
      · simp [h20]
        exact ih (k + 1) (by omega) (by omega)

/-- When the marker never disappears, the loop force-acquires at the 11th
attempt. -/
lemma acquire_attempts_forced (occupied : ℕ → Bool) (hall : ∀ k, occupied k = true) :
    ∀ n k, 10 - k ≤ n → k ≤ 10 → acquire_attempts occupied k = (11, true) := by
  intro n
  induction n with
  | zero =>
    intro k h1 h2
    have hk : k = 10 := by omega
    subst hk
    rw [acquire_attempts]
    simp [hall 10]
  | succ n ih =>
    intro k h1 h2
    rw [acquire_attempts]
    simp [hall k]
    by_cases h20 : 20 < 2 * (k + 1)
    · rw [if_pos h20]
      have hk : k = 10 := by omega
      subst hk
      rfl
    · rw [if_neg h20]
      exact ih (k + 1) (by omega) (by omega)

/-- C7: gate acquisition terminates for every caller: whatever the history
of the marker file, the retry loop of `_write_html_to_tmp_file` makes at
most 11 `open` calls, and when the marker persists forever it force-acquires
by overwriting the marker at the 11th call (after more than 20 seconds of
2-second sleeps). -/
theorem acquire_always_terminates (occupied : ℕ → Bool) :
    (acquire_attempts occupied 0).1 ≤ 11 ∧
    ((∀ k, occupied k = true) → acquire_attempts occupied 0 = (11, true)) :=
  ⟨acquire_attempts_le occupied 10 0 (by omega) (by omega),
   fun hall => acquire_attempts_forced occupied hall 10 0 (by omega) (by omega)⟩

/-- Witness for `acquire_always_terminates` with a permanently occupied
marker. -/
theorem acquire_always_terminates_witness :
    (acquire_attempts (fun _ => true) 0).1 ≤ 11 ∧
    acquire_attempts (fun _ => true) 0 = (11, true) :=
  ⟨(acquire_always_terminates (fun _ => true)).1,
   (acquire_always_terminates (fun _ => true)).2 (fun _ => rfl)⟩

/-- C9 fails on the code: the Threads extractor returns the text found in
the `MetadataContainer` element unchecked, so a candidate whose leading
character is a letter is kept instead of being discarded. -/
theorem threads_likes_unchecked :
    get_threads_likes_str (some "abc") = "abc" ∧
    ("abc" : String) ≠ "" ∧
    ¬('1' ≤ 'a' ∧ 'a' ≤ '9') := by
  refine ⟨rfl, by decide, by decide⟩

/-- C9 amended: the Twitter and Bluesky extractors return a non-empty label
only when the found text starts with a digit between 1 and 9 (the label is
then that text with the heart entity appended); the Threads extractor
returns whatever text it finds, unchecked. -/
theorem likes_label_guard :
    (∀ o, get_twitter_likes_str o ≠ "" →
       ∃ s c cs, o = some s ∧ s.toList = c :: cs ∧ '1' ≤ c ∧ c ≤ '9' ∧
         get_twitter_likes_str o = s ++ " &#9825;") ∧
    (∀ o, get_bluesky_likes_str o ≠ "" →
       ∃ s c cs, o = some s ∧ s.toList = c :: cs ∧ '1' ≤ c ∧ c ≤ '9' ∧
         get_bluesky_likes_str o = s ++ " &#9825;") ∧
    (∀ s, get_threads_likes_str (some s) = s) := by
  refine ⟨?_, ?_, fun s => rfl⟩ <;>
  · intro o h
    cases o with
    | none => exact absurd rfl h
    | some t =>
      rcases ht : t.data with _ | ⟨c, cs⟩
      · exact absurd (by simp [get_twitter_likes_str, get_bluesky_likes_str, ht]) h
      · by_cases hc : '1' ≤ c ∧ c ≤ '9'
        · exact ⟨t, c, cs, rfl, ht, hc.1, hc.2,
            by simp [get_twitter_likes_str, get_bluesky_likes_str, ht, hc]⟩
        · exact absurd (by simp [get_twitter_likes_str, get_bluesky_likes_str, ht, hc]) h

/-- Witness for `likes_label_guard` at concrete texts. -/
theorem likes_label_guard_witness :
    (∃ s c cs, (some "97" : Option String) = some s ∧ s.toList = c :: cs ∧
       '1' ≤ c ∧ c ≤ '9' ∧ get_twitter_likes_str (some "97") = s ++ " &#9825;") ∧
    get_threads_likes_str (some "x") = "x" :=
  ⟨likes_label_guard.1 (some "97") (by decide), likes_label_guard.2.2 "x"⟩

/-- C6 fails on the code: a 100 x 100 crop has positive width and height,
yet the resize/pad step produces no final image at all: the unclamped
desired size carries the Python float `1.9 * 100`, so `Image.new` raises
`TypeError` instead of returning an image. -/
theorem proper_size_raises_unclamped :
    (0 : ℚ) < 100 ∧
    proper_size 100 100 = .error "TypeError: size must be a tuple of two integers" := by
  refine ⟨by norm_num, ?_⟩
  norm_num [proper_size]

/-- C6 amended: whenever the resize/pad step produces a final image at all,
that image is exactly 1200 x 630 — width at most 1200, height at most 630,
aspect ratio the nominal 1200/630 — and on every input where the width cap
does not bind, `Image.new` raises `TypeError` and no final image is
produced. -/
theorem proper_size_only_clamped (w h : ℚ) (_hw : 0 < w) (_hh : 0 < h) :
    (∀ p, proper_size w h = .ok p →
       p.1 ≤ 1200 ∧ p.2 ≤ 630 ∧ p.1 / p.2 = 1200 / 630 ∧ p = (1200, 630)) ∧
    (proper_size w h = .ok (1200, 630) ∨
      proper_size w h = .error "TypeError: size must be a tuple of two integers") := by
  have e : proper_size w h =
      if 1200 < (if w / h < 19/10 then 19/10 * h else w) then
        Except.ok ((1200 : ℚ), (630 : ℚ))
      else .error "TypeError: size must be a tuple of two integers" := by
    by_cases h1 : w / h < 19/10 <;> simp [proper_size, h1]
  rw [e]
  by_cases hc : 1200 < (if w / h < 19/10 then (19 : ℚ)/10 * h else w)
  · rw [if_pos hc]
    refine ⟨fun p hp => ?_, Or.inl rfl⟩
    injection hp with hpp
    subst hpp
    exact ⟨by norm_num, by norm_num, rfl, rfl⟩
  · rw [if_neg hc]
    refine ⟨fun p hp => ?_, Or.inr rfl⟩
    exact absurd hp (by simp)

/-- Witness for `proper_size_only_clamped` at a concrete 2400 x 100 crop,
where the width cap binds. -/
theorem proper_size_only_clamped_witness :
    proper_size 2400 100 = .ok (1200, 630) ∨
    proper_size 2400 100 = .error "TypeError: size must be a tuple of two integers" :=
  (proper_size_only_clamped 2400 100 (by norm_num) (by norm_num)).2

/-- Python rounding never overshoots by more than half. -/
lemma pyRound_le (q : ℚ) : (pyRound q : ℚ) ≤ q + 1/2 := by
  have hf : (⌊q⌋ : ℚ) ≤ q := Int.floor_le q
  unfold pyRound
  split_ifs with h1 h2 h3
  · linarith
  · push_cast
    linarith
  · linarith
  · push_cast
    linarith

/-- Python rounding never undershoots by more than half. -/
lemma le_pyRound (q : ℚ) : q - 1/2 ≤ (pyRound q : ℚ) := by
  have hf : q < ⌊q⌋ + 1 := Int.lt_floor_add_one q
  unfold pyRound
  split_ifs with h1 h2 h3
  · linarith
  · push_cast
    linarith
  · linarith
  · push_cast
    linarith

/-- Rounding preserves strict order across a gap of more than one. -/
lemma pyRound_lt_pyRound {a b : ℚ} (h : a + 1 < b) : pyRound a < pyRound b := by
  have ha := pyRound_le a
  have hb := le_pyRound b
  have : (pyRound a : ℚ) < (pyRound b : ℚ) := by linarith
  exact_mod_cast this

/-- C8 fails on the code: no clamping to the screenshot is performed.  For a
Twitter post whose iframe sits at the origin (with the article first div at
offset 0 and the timestamp at 100, pixel ratio 1, inside a 600 x 1000
screenshot) the computed top is -6, outside `[0, screenshotHeight]`. -/
theorem crop_rect_not_clamped :
    get_twitter_rect 1 ⟨0, 0, 300, 200⟩ (some ⟨0, some 100, 150⟩) = (2, -6, 298, 90) ∧
    (-6 : ℤ) < 0 := by
  refine ⟨by norm_num [get_twitter_rect, pyRound, Prod.ext_iff], by decide⟩

/-- C8 amended: in the branches where the structural elements are found,
each platform rectangle satisfies `left < right` and `top < bottom` as soon
as the measured geometry clears the fixed pixel insets by more than one
output pixel; but the code never clamps the coordinates to
`[0, screenshotWidth] x [0, screenshotHeight]`. -/
theorem crop_rect_ordered :
    (∀ (ratio : ℚ) (iframe : ElemRect) (div_y ty ah : ℚ),
       5 < iframe.width * ratio → 5 < (ty - div_y) * ratio →
       (get_twitter_rect ratio iframe (some ⟨div_y, some ty, ah⟩)).1 <
         (get_twitter_rect ratio iframe (some ⟨div_y, some ty, ah⟩)).2.2.1 ∧
       (get_twitter_rect ratio iframe (some ⟨div_y, some ty, ah⟩)).2.1 <
         (get_twitter_rect ratio iframe (some ⟨div_y, some ty, ah⟩)).2.2.2) ∧
    (∀ (ratio : ℚ) (iframe : ElemRect) (top_bar_y ty : ℚ),
       1 < (iframe.width - 2) * ratio → 1 < (ty - top_bar_y - 5) * ratio →
       (get_bluesky_rect ratio iframe top_bar_y (some ty)).1 <
         (get_bluesky_rect ratio iframe top_bar_y (some ty)).2.2.1 ∧
       (get_bluesky_rect ratio iframe top_bar_y (some ty)).2.1 <
         (get_bluesky_rect ratio iframe top_bar_y (some ty)).2.2.2) ∧
    (∀ (ratio : ℚ) (outer : ElemRect) (action_bar_y : ℚ),
       1 < (outer.width - 37) * ratio → 1 < (action_bar_y - 16) * ratio →
       (get_threads_rect ratio outer action_bar_y).1 <
         (get_threads_rect ratio outer action_bar_y).2.2.1 ∧
       (get_threads_rect ratio outer action_bar_y).2.1 <
         (get_threads_rect ratio outer action_bar_y).2.2.2) := by
  refine ⟨fun ratio iframe div_y ty ah h1 h2 => ?_,
          fun ratio iframe top_bar_y ty h1 h2 => ?_,
          fun ratio outer action_bar_y h1 h2 => ?_⟩
  · simp only [get_twitter_rect]
    constructor
    · apply pyRound_lt_pyRound
      linarith
    · apply pyRound_lt_pyRound
      have e : (iframe.y + ty) * ratio - (iframe.y + div_y) * ratio =
          (ty - div_y) * ratio := by ring
      linarith
  · simp only [get_bluesky_rect]
    constructor
    · apply pyRound_lt_pyRound
      linarith
    · apply pyRound_lt_pyRound
      have e : (iframe.y + ty - 7) * ratio - (iframe.y + top_bar_y - 2) * ratio =
          (ty - top_bar_y - 5) * ratio := by ring
      linarith
  · simp only [get_threads_rect]
    constructor
    · apply pyRound_lt_pyRound
      linarith
    · apply pyRound_lt_pyRound
      linarith

/-- Witness for `crop_rect_ordered` at concrete measurements. -/
theorem crop_rect_ordered_witness :
    ((get_twitter_rect 1 ⟨0, 0, 300, 200⟩ (some ⟨0, some 100, 150⟩)).1 <
       (get_twitter_rect 1 ⟨0, 0, 300, 200⟩ (some ⟨0, some 100, 150⟩)).2.2.1 ∧
     (get_twitter_rect 1 ⟨0, 0, 300, 200⟩ (some ⟨0, some 100, 150⟩)).2.1 <
       (get_twitter_rect 1 ⟨0, 0, 300, 200⟩ (some ⟨0, some 100, 150⟩)).2.2.2) ∧
    ((get_bluesky_rect 1 ⟨0, 10, 300, 200⟩ 20 (some 120)).1 <
       (get_bluesky_rect 1 ⟨0, 10, 300, 200⟩ 20 (some 120)).2.2.1 ∧
     (get_bluesky_rect 1 ⟨0, 10, 300, 200⟩ 20 (some 120)).2.1 <
       (get_bluesky_rect 1 ⟨0, 10, 300, 200⟩ 20 (some 120)).2.2.2) ∧
    ((get_threads_rect 1 ⟨10, 10, 300, 200⟩ 150).1 <
       (get_threads_rect 1 ⟨10, 10, 300, 200⟩ 150).2.2.1 ∧
     (get_threads_rect 1 ⟨10, 10, 300, 200⟩ 150).2.1 <
       (get_threads_rect 1 ⟨10, 10, 300, 200⟩ 150).2.2.2) :=
  ⟨crop_rect_ordered.1 1 ⟨0, 0, 300, 200⟩ 0 100 150 (by norm_num) (by norm_num),
   crop_rect_ordered.2.1 1 ⟨0, 10, 300, 200⟩ 20 120 (by norm_num) (by norm_num),
   crop_rect_ordered.2.2 1 ⟨10, 10, 300, 200⟩ 150 (by norm_num) (by norm_num)⟩

/-- A pattern that is a prefix of some suffix of `s` occurs in `s`. -/
lemma containsSub_of_prefix_drop (pat : List Char) :
    ∀ (s : List Char) (j : ℕ), pat.isPrefixOf (s.drop j) = true → containsSub pat s = true := by
  intro s
  induction s with
  | nil =>
    intro j h
    simp only [List.drop_nil] at h
    cases pat with
    | nil => rfl
    | cons c t => simp [List.isPrefixOf] at h
  | cons c t ih =>
    intro j h
    cases j with
    | zero =>
      simp only [List.drop_zero] at h
      simp [containsSub, h]
    | succ j =>
      simp only [List.drop_succ_cons] at h
      simp [containsSub, ih j h]

/-- A successful backtracking search found the middle literal somewhere
strictly after the start of `rest`. -/
lemma tryMatchAt_some_prefix (lit1 : List Char) (p2 : Char → Bool) :
    ∀ (n : ℕ) (rest : List Char) (g : List Char × List Char),
      tryMatchAt rest lit1 p2 n = some g →
      ∃ j, 1 ≤ j ∧ lit1.isPrefixOf (rest.drop j) = true := by
  intro n
  induction n with
  | zero => intro rest g h; simp [tryMatchAt] at h
  | succ n ih =>
    intro rest g h
    rw [tryMatchAt] at h
    by_cases hp : lit1.isPrefixOf (rest.drop (n + 1)) = true
    · refine ⟨n + 1, by omega, hp⟩
    · simp only [Bool.not_eq_true] at hp
      rw [if_neg (by simp [hp])] at h
      exact ih rest g h

/-- A successful `matchTwoGroups` implies the input starts with `lit0` and
contains `lit1`. -/
lemma matchTwoGroups_some (lit0 lit1 : List Char) (p2 : Char → Bool) (s : List Char)
    (g : List Char × List Char) (h : matchTwoGroups lit0 lit1 p2 s = some g) :
    lit0.isPrefixOf s = true ∧ containsSub lit1 s = true := by
  rw [matchTwoGroups] at h
  by_cases hp : lit0.isPrefixOf s = true
  · rw [if_pos hp] at h
    obtain ⟨j, hj1, hj2⟩ := tryMatchAt_some_prefix lit1 p2 _ _ g h
    rw [List.drop_drop] at hj2
    exact ⟨hp, containsSub_of_prefix_drop lit1 s _ hj2⟩
  · simp only [Bool.not_eq_true] at hp
    rw [if_neg (by simp [hp])] at h
    exact absurd h (by simp)

/-- A path the twitter pattern matches contains the substring that the
classifier tests for. -/
lemma twitter_parse_contains (path : String) (r : String × String)
    (h : twitter_parse path = some r) : strContains path "/status/" = true := by
  unfold twitter_parse at h
  cases e : matchTwoGroups ['/'] "/status/".toList isNonSpace path.toList with
  | none => rw [e] at h; simp at h
  | some g => exact (matchTwoGroups_some _ _ _ _ g e).2

/-- A path the bluesky pattern matches starts with `/profile/` and contains
`/post/`. -/
lemma bluesky_parse_contains (path : String) (r : String × String)
    (h : bluesky_parse path = some r) :
    strContains path "/profile/" = true ∧ strContains path "/post/" = true := by
  unfold bluesky_parse at h
  cases e : matchTwoGroups "/profile/".toList "/post/".toList isNonSpace path.toList with
  | none => rw [e] at h; simp at h
  | some g =>
    have hm := matchTwoGroups_some _ _ _ _ g e
    exact ⟨containsSub_of_prefix_drop _ _ 0 hm.1, hm.2⟩

/-- A path the threads pattern matches contains `/post/`. -/
lemma threads_parse_contains (path : String) (r : String × String)
    (h : threads_parse path = some r) : strContains path "/post/" = true := by
  unfold threads_parse at h
  cases e : matchTwoGroups ['/'] "/post/".toList (fun c => c != '?') path.toList with
  | none => rw [e] at h; simp at h
  | some g => exact (matchTwoGroups_some _ _ _ _ g e).2

/-- C5 fails on the code: the path `/status/x` matches none of the three
platform patterns, yet the classifier, which only tests substrings, does not
yield `UNKNOWN` for it but `XITTER`; the twitter regex parse that follows on
the card path then finds no match (so `_parse_path` raises
`AttributeError`). -/
theorem unmatched_path_not_unknown :
    matches_some_grammar "/status/x" = false ∧
    get_post_type "/status/x" = PostType.XITTER ∧
    PostType.XITTER ≠ PostType.UNKNOWN ∧
    twitter_parse "/status/x" = none := by
  refine ⟨by decide, by decide, by decide, by decide⟩

/-- C5 amended: classification and parsing are pure functions of the path
(so deterministic and, for classification, total), and on
pattern-matching paths classification agrees with the matched pattern as
far as the substring tests allow: a twitter-pattern path is always
classified `XITTER`; a bluesky-pattern path is classified `BLUESKY` unless
it also contains `/status/`; a threads-pattern path is classified `THREADS`
provided it contains `/@` and avoids the substrings of the earlier branches.
A path matching no pattern need not be classified `UNKNOWN`. -/
theorem grammar_classification :
    (∀ path r, twitter_parse path = some r → get_post_type path = PostType.XITTER) ∧
    (∀ path r, bluesky_parse path = some r → strContains path "/status/" = false →
       get_post_type path = PostType.BLUESKY) ∧
    (∀ path r, threads_parse path = some r → strContains path "/status/" = false →
       strContains path "/profile/" = false → strContains path "/@" = true →
       get_post_type path = PostType.THREADS) := by
  refine ⟨fun path r h => ?_, fun path r h h1 => ?_, fun path r h h1 h2 h3 => ?_⟩
  · simp [get_post_type, twitter_parse_contains path r h]
  · have hb := bluesky_parse_contains path r h
    simp [get_post_type, h1, hb.1, hb.2]
  · have ht := threads_parse_contains path r h
    simp [get_post_type, h1, h2, h3, ht]

/-- Witness for `grammar_classification` at concrete paths. -/
theorem grammar_classification_witness :
    get_post_type "/u/status/1" = PostType.XITTER ∧
    get_post_type "/profile/u/post/1" = PostType.BLUESKY ∧
    get_post_type "/@u/post/1" = PostType.THREADS :=
  ⟨grammar_classification.1 "/u/status/1" ("u", "1") (by decide),
   grammar_classification.2.1 "/profile/u/post/1" ("u", "1") (by decide) (by decide),
   grammar_classification.2.2 "/@u/post/1" ("@u", "1") (by decide) (by decide) (by decide)
     (by decide)⟩

/-- On a known post type with a non-empty snippet, a failing render leaves
the gate marker in place: the `except:` branch at requestHandler.py line 288
answers with `_error_response` without erasing the tmp file. -/
lemma regenerate_render_error (env : Env) (raw_path : String) (html e : String) (tmp0 : Bool)
    (hk : get_post_type (url_path raw_path) ≠ PostType.UNKNOWN)
    (hsnip : env.snippet (get_post_type (url_path raw_path)) = .ok html)
    (hne : html ≠ "")
    (hr : env.render = .error e) :
    (regenerate_card env raw_path tmp0).events = [.cacheLookup, .gateAcquire, .renderCall] ∧
    (regenerate_card env raw_path tmp0).tmp_file_exists = true ∧
    (regenerate_card env raw_path tmp0).bad_request_log = [] := by
  simp only [regenerate_card]
  cases hpt : get_post_type (url_path raw_path) with
  | UNKNOWN => exact absurd hpt hk
  | XITTER =>
    rw [hpt] at hsnip
    simp only [get_html_for_post, hsnip, if_neg hne, hr]
    refine ⟨?_, ?_, ?_⟩ <;> trivial
  | BLUESKY =>
    rw [hpt] at hsnip
    simp only [get_html_for_post, hsnip, if_neg hne, hr]
    refine ⟨?_, ?_, ?_⟩ <;> trivial
  | THREADS =>
    rw [hpt] at hsnip
    simp only [get_html_for_post, hsnip, if_neg hne, hr]
    refine ⟨?_, ?_, ?_⟩ <;> trivial

/-- On a known post type with a non-empty snippet and a successful render,
the pipeline releases the gate and performs both writes, in order. -/
lemma regenerate_render_ok (env : Env) (raw_path : String) (html : String) (r : RenderResult)
    (tmp0 : Bool)
    (hk : get_post_type (url_path raw_path) ≠ PostType.UNKNOWN)
    (hsnip : env.snippet (get_post_type (url_path raw_path)) = .ok html)
    (hne : html ≠ "")
    (hr : env.render = .ok r) :
    (regenerate_card env raw_path tmp0).events =
      [.cacheLookup, .gateAcquire, .renderCall, .gateRelease, .imageWrite, .cardWrite] ∧
    (regenerate_card env raw_path tmp0).tmp_file_exists = false := by
  simp only [regenerate_card]
  cases hpt : get_post_type (url_path raw_path) with
  | UNKNOWN => exact absurd hpt hk
  | XITTER =>
    rw [hpt] at hsnip
    simp only [get_html_for_post, hsnip, if_neg hne, hr]
    refine ⟨?_, ?_⟩ <;> trivial
  | BLUESKY =>
    rw [hpt] at hsnip
    simp only [get_html_for_post, hsnip, if_neg hne, hr]
    refine ⟨?_, ?_⟩ <;> trivial
  | THREADS =>
    rw [hpt] at hsnip
    simp only [get_html_for_post, hsnip, if_neg hne, hr]
    refine ⟨?_, ?_⟩ <;> trivial

/-- For an unknown post type the pipeline answers 404 after the cache
lookup, appending exactly one line to the bad-requests log. -/
lemma regenerate_card_unknown (env : Env) (raw_path : String) (tmp0 : Bool)
    (hty : get_post_type (url_path raw_path) = PostType.UNKNOWN) :
    regenerate_card env raw_path tmp0 =
      { response := error_response ("Could not get html for path=" ++ url_path raw_path),
        events := [.cacheLookup],
        bad_request_log :=
          [env.client_ip ++ " : " ++ "Not a post that can be handled:\"" ++ raw_path ++ "\""],
        tmp_file_exists := tmp0 } := by
  simp only [regenerate_card, hty, get_html_for_post]
  rfl

/-- C1 fails on the code: in a run where the cache is empty, the snippet
fetch succeeds and the render step raises, the request ends (with a 404)
while the gate marker file still exists: the `except:` handler does not
erase it, so the gate is not released on this exit path. -/
theorem gate_leaked_on_render_failure :
    (return_open_graph_card envRenderFails "/u/status/1" false).tmp_file_exists = true ∧
    Event.gateAcquire ∈ (return_open_graph_card envRenderFails "/u/status/1" false).events ∧
    Event.gateRelease ∉ (return_open_graph_card envRenderFails "/u/status/1" false).events := by
  refine ⟨by decide, by decide, by decide⟩

/-- C1 amended: after the gate is acquired, the marker is erased on the
success path (before the image is stored), but when the render/screenshot
step raises, the exception path sends the error response without erasing the
marker, which stays behind (to be reclaimed by the startup cleanup or by the
20-second force-acquire of a later request). -/
theorem gate_release_paths (env : Env) (raw_path : String) (html : String)
    (hcache : env.cached_card = none)
    (hk : get_post_type (url_path raw_path) ≠ PostType.UNKNOWN)
    (hsnip : env.snippet (get_post_type (url_path raw_path)) = .ok html)
    (hne : html ≠ "") :
    (∀ r, env.render = .ok r →
       (return_open_graph_card env raw_path false).tmp_file_exists = false ∧
       Event.gateRelease ∈ (return_open_graph_card env raw_path false).events) ∧
    (∀ e, env.render = .error e →
       (return_open_graph_card env raw_path false).tmp_file_exists = true ∧
       Event.gateRelease ∉ (return_open_graph_card env raw_path false).events) := by
  have hro : return_open_graph_card env raw_path false = regenerate_card env raw_path false := by
    simp only [return_open_graph_card, hcache]
  constructor
  · intro r hr
    have h := regenerate_render_ok env raw_path html r false hk hsnip hne hr
    rw [hro, h.2, h.1]
    exact ⟨rfl, by decide⟩
  · intro e hr
    have h := regenerate_render_error env raw_path html e false hk hsnip hne hr
    rw [hro, h.2.1, h.1]
    exact ⟨rfl, by decide⟩

/-- Witness for `gate_release_paths`: a successful run erases the marker. -/
theorem gate_release_paths_witness :
    (return_open_graph_card envRenderOk "/u/status/1" false).tmp_file_exists = false ∧
    Event.gateRelease ∈ (return_open_graph_card envRenderOk "/u/status/1" false).events :=
  (gate_release_paths envRenderOk "/u/status/1" "<blockquote>post</blockquote>"
      rfl (by decide) rfl (by decide)).1
    { imgW := 1140, imgH := 600, shrinkage := 1,
      likes_str := "97 &#9825;", post_text := "hello" } rfl

/-- C2 fails on the code: a GET for the unparseable path `/not-a-post` from
a non-crawler User-Agent is answered with a 302 redirect to `x.com`, not
with a 404, and nothing is appended to the bad-requests log. -/
theorem unknown_path_browser_redirect :
    do_GET envRenderFails "/not-a-post" (some "Mozilla/5.0 Firefox/120.0") false =
      .ok { response := { status := 302, contentType := none,
                          body := "Redirecting to https://x.com/not-a-post",
                          location := some "https://x.com/not-a-post" },
            events := [], bad_request_log := [], tmp_file_exists := false } ∧
    (302 : ℕ) ≠ 404 := by
  refine ⟨by rfl, by decide⟩

/-- C2 amended: for a crawler User-Agent, a GET outside the image namespace
whose path matches no platform grammar is answered 404 `text/plain` with
exactly one line `client-ip : message` appended to the bad-request log; a
non-crawler User-Agent gets a 302 redirect instead. -/
theorem unknown_path_crawler_404 (env : Env) (raw_path : String) (ua : String)
    (hcr : is_open_graph_crawler (some ua) = .ok true)
    (himg : strStartsWith raw_path "/images" = false)
    (hty : get_post_type (url_path raw_path) = PostType.UNKNOWN)
    (hcache : env.cached_card = none) :
    do_GET env raw_path (some ua) false =
      .ok { response := error_response ("Could not get html for path=" ++ url_path raw_path),
            events := [.cacheLookup],
            bad_request_log :=
              [env.client_ip ++ " : " ++ "Not a post that can be handled:\"" ++ raw_path ++ "\""],
            tmp_file_exists := false } := by
  simp only [do_GET, himg, Bool.false_eq_true, if_false, hcr]
  simp only [return_open_graph_card, hcache]
  rw [regenerate_card_unknown env raw_path false hty]

/-- Witness for `unknown_path_crawler_404` at a concrete crawler request. -/
theorem unknown_path_crawler_404_witness :
    do_GET envRenderFails "/not-a-post"
        (some "Mozilla/5.0 (compatible; Bluesky Cardyb/1.1)") false =
      .ok { response := error_response "Could not get html for path=/not-a-post",
            events := [.cacheLookup],
            bad_request_log :=
              ["203.0.113.7 : Not a post that can be handled:\"/not-a-post\""],
            tmp_file_exists := false } := by
  have h := unknown_path_crawler_404 envRenderFails "/not-a-post"
    "Mozilla/5.0 (compatible; Bluesky Cardyb/1.1)" (by rfl) (by decide) (by decide) rfl
  rw [h]
  rfl

/-- C4 fails on the code: in a successful cache-miss run the render is
performed although the image store was never looked up (only the card cache
is consulted before rendering). -/
theorem image_store_not_consulted :
    Event.renderCall ∈ (return_open_graph_card envRenderOk "/u/status/1" false).events ∧
    Event.imageLookup ∉ (return_open_graph_card envRenderOk "/u/status/1" false).events := by
  refine ⟨by decide, by decide⟩

/-- C4 amended: before any render only the card cache is looked up (the
image store is not consulted), and after a successful render the image file
and the card document are both written, image first, so the two stores are
updated together on the success path. -/
theorem stores_written_together (env : Env) (raw_path : String) (html : String)
    (r : RenderResult)
    (hcache : env.cached_card = none)
    (hk : get_post_type (url_path raw_path) ≠ PostType.UNKNOWN)
    (hsnip : env.snippet (get_post_type (url_path raw_path)) = .ok html)
    (hne : html ≠ "")
    (hr : env.render = .ok r) :
    (return_open_graph_card env raw_path false).events =
      [.cacheLookup, .gateAcquire, .renderCall, .gateRelease, .imageWrite, .cardWrite] := by
  have hro : return_open_graph_card env raw_path false = regenerate_card env raw_path false := by
    simp only [return_open_graph_card, hcache]
  rw [hro]
  exact (regenerate_render_ok env raw_path html r false hk hsnip hne hr).1

/-- Witness for `stores_written_together` at a concrete successful run. -/
theorem stores_written_together_witness :
    (return_open_graph_card envRenderOk "/u/status/1" false).events =
      [.cacheLookup, .gateAcquire, .renderCall, .gateRelease, .imageWrite, .cardWrite] :=
  stores_written_together envRenderOk "/u/status/1" "<blockquote>post</blockquote>"
    { imgW := 1140, imgH := 600, shrinkage := 1,
      likes_str := "97 &#9825;", post_text := "hello" }
    rfl (by decide) rfl (by decide) rfl
